import Mathlib

/-!
# Verification of the RSS generator (`src/index.js`)

The repository is a single Cloudflare Worker that serves an HTML page whose
embedded Python (run through Pyodide) does the actual work:

* the JS side (`main`) reads the `url` and `max_items` query parameters and
  splices them textually into the Python program;
* the Python side (`scrape_and_generate_rss`) fetches the page, parses it with
  BeautifulSoup, walks every `<tr>`, extracts a magnet link / title /
  timestamp per row, and renders a feed (feedgen); on any exception it
  renders a "Processing Error" feed instead.

This file is a shallow embedding of that pipeline:

* HTML documents become the inductive `Node` tree (a mutual inductive so that
  every traversal is structural and kernel-reducible);
* BeautifulSoup's `select` / `select_one` / `get_text(strip=True)` /
  `get(attr)` become `select` / `selectOne` / `Node.strippedText` /
  `Node.attrD` over that tree;
* Python `datetime.strptime(s, "%Y-%m-%d %H:%M:%S")` becomes
  `strptimeYmdHMS`, including the calendar validation performed by the
  `datetime` constructor;
* the network is a `FetchResult` parameter (the fetch itself is a
  collaborator: we model what the program does with each possible outcome);
* feedgen is modelled by the `Feed` / `Entry` records it is fed (XML
  serialization is a collaborator and is not modelled).

String primitives are re-implemented over `List Char` (`pyStrip`,
`startswith`, ...) because the corresponding `String` library functions are
defined by well-founded recursion on byte positions and do not reduce inside
the kernel; the char-list versions have the same meaning on the inputs the
program handles.
-/

namespace RssGen

/-! ## String helpers (Python `str` operations, over `List Char`) -/

/-- Python `str.strip()` on a character list: drop whitespace from both ends. -/
def stripChars (cs : List Char) : List Char :=
  ((cs.dropWhile Char.isWhitespace).reverse.dropWhile Char.isWhitespace).reverse

/-- Python `str.strip()`. -/
def pyStrip (s : String) : String := ⟨stripChars s.data⟩

/-- Python `str.startswith` / the CSS `[href^=...]` attribute test. -/
def startswith (p s : String) : Bool := List.isPrefixOf p.data s.data

/-- Python `str.endswith`. -/
def endswith (p s : String) : Bool := List.isSuffixOf p.data s.data

/-- Split on runs of whitespace (how an HTML `class` attribute is tokenized
when matching a CSS class selector). Accumulator-structural so it reduces in
the kernel. -/
def wsTokensAux : List Char → List Char → List String
  | [], acc => if acc.isEmpty then [] else [⟨acc.reverse⟩]
  | c :: cs, acc =>
    if c.isWhitespace then
      (if acc.isEmpty then wsTokensAux cs [] else (⟨acc.reverse⟩ : String) :: wsTokensAux cs [])
    else wsTokensAux cs (c :: acc)

/-- Whitespace-separated tokens of a string. -/
def wsTokens (s : String) : List String := wsTokensAux s.data []

/-! ## The DOM

BeautifulSoup's parse tree, restricted to what the program touches: element
nodes with a tag name and attributes, and text nodes. A mutual inductive
(rather than `List Node` children) keeps all recursion structural. -/

mutual
inductive Node : Type where
  | text : String → Node
  | elem : (tag : String) → (attrs : List (String × String)) → NodeList → Node
inductive NodeList : Type where
  | nil : NodeList
  | cons : Node → NodeList → NodeList
end

/-- Build a `NodeList` from a `List Node` (for writing fixtures). -/
def nodesOf : List Node → NodeList
  | [] => .nil
  | c :: cs => .cons c (nodesOf cs)

/-- Element-node constructor taking an ordinary list of children. -/
def el (tag : String) (attrs : List (String × String)) (children : List Node) : Node :=
  .elem tag attrs (nodesOf children)

/-- Text-node constructor. -/
def tx (s : String) : Node := .text s

/-- The tag of an element node (text nodes have none; `""` here). -/
def Node.tagOf : Node → String
  | .text _ => ""
  | .elem t _ _ => t

/-- Attribute lookup, BeautifulSoup `tag.get(name)`: first binding wins. -/
def Node.attr : Node → String → Option String
  | .text _, _ => none
  | .elem _ attrs _, name => (attrs.find? (fun p => p.1 == name)).map (·.2)

/-- BeautifulSoup `tag.get(name, "")`. -/
def Node.attrD (n : Node) (name : String) : String := (n.attr name).getD ""

mutual
/-- All element descendants of a node, in document (preorder) order — the
search space of BeautifulSoup's `select` (which does not match the root
itself). -/
def Node.descElems : Node → List Node
  | .text _ => []
  | .elem _ _ cs => cs.descElemsAll
/-- Element descendants of a child list: each element child followed by its
own descendants. -/
def NodeList.descElemsAll : NodeList → List Node
  | .nil => []
  | .cons c cs =>
    (match c with | .elem .. => [c] | .text _ => []) ++ c.descElems ++ cs.descElemsAll
end

mutual
/-- BeautifulSoup `get_text(strip=True)`: concatenation of every descendant
text string, each stripped (the default separator is the empty string, and
stripped-empty strings contribute nothing to a concatenation). -/
def Node.strippedText : Node → String
  | .text s => pyStrip s
  | .elem _ _ cs => cs.strippedTextAll
/-- `strippedText` over a child list. -/
def NodeList.strippedTextAll : NodeList → String
  | .nil => ""
  | .cons c cs => c.strippedText ++ cs.strippedTextAll
end

mutual
/-- BeautifulSoup `get_text()` (no stripping): concatenation of descendant
text strings. Used for the feed title (`feed_title_tag.get_text()`). -/
def Node.plainText : Node → String
  | .text s => s
  | .elem _ _ cs => cs.plainTextAll
/-- `plainText` over a child list. -/
def NodeList.plainTextAll : NodeList → String
  | .nil => ""
  | .cons c cs => c.plainText ++ cs.plainTextAll
end

mutual
/-- Structural equality of nodes (BeautifulSoup compares tags by identity;
in this embedding distinct occurrences are distinct subtrees, and the only
equality test the model needs is structural). -/
def Node.beq : Node → Node → Bool
  | .text s, .text t => s == t
  | .elem t1 a1 c1, .elem t2 a2 c2 => t1 == t2 && a1 == a2 && NodeList.beqAll c1 c2
  | _, _ => false
/-- `Node.beq` over child lists. -/
def NodeList.beqAll : NodeList → NodeList → Bool
  | .nil, .nil => true
  | .cons c cs, .cons d ds => c.beq d && NodeList.beqAll cs ds
  | _, _ => false
end

/-- `root.select(sel)` for a selector given as an element predicate:
all matching element descendants, in document order. -/
def select (root : Node) (p : Node → Bool) : List Node := root.descElems.filter p

/-- `root.select_one(sel)`: first match in document order, if any. -/
def selectOne (root : Node) (p : Node → Bool) : Option Node := (select root p).head?

/-! ## The selectors used by `scrape_and_generate_rss` -/

/-- The magnet-URI pattern of the selector `a[href^="magnet:?xt=urn:btih:"]`
and of the `href.startswith(...)` test in the title loop. -/
def magnetPat : String := "magnet:?xt=urn:btih:"

/-- Does an element carry the given class token (CSS `.cls` matching)? -/
def hasClass (n : Node) (cls : String) : Bool :=
  match n.attr "class" with
  | some v => (wsTokens v).contains cls
  | none => false

/-- `tr` — a listing row. -/
def isTr (n : Node) : Bool := n.tagOf == "tr"

/-- `a[href^="magnet:?xt=urn:btih:"]` — a magnet anchor. -/
def isMagnetAnchor (n : Node) : Bool :=
  n.tagOf == "a" && (match n.attr "href" with | some h => startswith magnetPat h | none => false)

/-- `a[href]` — an anchor carrying an href. -/
def isHrefAnchor (n : Node) : Bool := n.tagOf == "a" && (n.attr "href").isSome

/-- `a` — any anchor (used by `tds[1].select_one('a')`). -/
def isAnchor (n : Node) : Bool := n.tagOf == "a"

/-- `td` — a table cell. -/
def isTd (n : Node) : Bool := n.tagOf == "td"

/-- `td.text-center` — a centered table cell. -/
def isCenterTd (n : Node) : Bool := n.tagOf == "td" && hasClass n "text-center"

/-- `title` — the document title element (`soup.find('title')`). -/
def isTitleTag (n : Node) : Bool := n.tagOf == "title"

/-! ## `datetime.strptime(time_text, "%Y-%m-%d %H:%M:%S")`

CPython compiles the format to a regex: `%Y` matches exactly four digits;
`%m`, `%d`, `%H`, `%M`, `%S` match one or two digits within the field's
range; a whitespace character in the format matches a run of whitespace; the
whole input must be consumed ("unconverted data remains" otherwise). The
`datetime` constructor then validates the calendar day (and rejects the
leap-second values 60/61 that the `%S` regex admits, and year 0) — both a
regex mismatch and a constructor rejection raise `ValueError`, which the
program catches identically, so both are `none` here. -/

/-- Digit value of a character, if it is a decimal digit. -/
def digitVal (c : Char) : Option Nat :=
  if c.isDigit then some (c.toNat - 48) else none

/-- Parse a one-or-two digit field constrained to `[lo, hi]`. Taking two
digits when they fit the range is equivalent to the regex's ordered
alternation, because every field is followed by a non-digit (separator or
end) in any successful overall match. -/
def takeField (lo hi : Nat) : List Char → Option (Nat × List Char)
  | [] => none
  | [a] =>
    match digitVal a with
    | some x => if lo ≤ x && x ≤ hi then some (x, []) else none
    | none => none
  | a :: b :: rest =>
    match digitVal a with
    | none => none
    | some x =>
      match digitVal b with
      | some y =>
        if lo ≤ 10 * x + y && 10 * x + y ≤ hi then some (10 * x + y, rest)
        else if lo ≤ x && x ≤ hi then some (x, b :: rest) else none
      | none => if lo ≤ x && x ≤ hi then some (x, b :: rest) else none

/-- Parse exactly four digits (`%Y`). -/
def takeYear : List Char → Option (Nat × List Char)
  | a :: b :: c :: d :: rest =>
    match digitVal a, digitVal b, digitVal c, digitVal d with
    | some w, some x, some y, some z => some (((w * 10 + x) * 10 + y) * 10 + z, rest)
    | _, _, _, _ => none
  | _ => none

/-- Match one literal character. -/
def takeLit (c : Char) : List Char → Option (List Char)
  | [] => none
  | a :: rest => if a == c then some rest else none

/-- Match one-or-more whitespace characters (a whitespace in the format). -/
def takeWs : List Char → Option (List Char)
  | [] => none
  | a :: rest =>
    if a.isWhitespace then some (rest.dropWhile Char.isWhitespace) else none

/-- Gregorian leap year (`datetime`'s calendar). -/
def isLeap (y : Nat) : Bool := (y % 4 == 0 && y % 100 != 0) || y % 400 == 0

/-- Days in a month of a year. -/
def daysInMonth (y m : Nat) : Nat :=
  if m == 2 then (if isLeap y then 29 else 28)
  else if m == 4 || m == 6 || m == 9 || m == 11 then 30
  else 31

/-- A timezone-aware UTC datetime, as produced by
`datetime.strptime(...).replace(tzinfo=timezone.utc)`. -/
structure DateTimeUTC where
  year : Nat
  month : Nat
  day : Nat
  hour : Nat
  minute : Nat
  second : Nat
deriving DecidableEq, Repr

/-- `datetime.strptime(s, "%Y-%m-%d %H:%M:%S")`, `none` exactly when Python
raises `ValueError` (regex mismatch, trailing input, bad calendar day,
leap-second value, year 0). -/
def strptimeYmdHMS (s : String) : Option DateTimeUTC :=
  match takeYear s.data with
  | none => none
  | some (y, r1) =>
  match takeLit '-' r1 with
  | none => none
  | some r2 =>
  match takeField 1 12 r2 with
  | none => none
  | some (mo, r3) =>
  match takeLit '-' r3 with
  | none => none
  | some r4 =>
  match takeField 1 31 r4 with
  | none => none
  | some (d, r5) =>
  match takeWs r5 with
  | none => none
  | some r6 =>
  match takeField 0 23 r6 with
  | none => none
  | some (h, r7) =>
  match takeLit ':' r7 with
  | none => none
  | some r8 =>
  match takeField 0 59 r8 with
  | none => none
  | some (mi, r9) =>
  match takeLit ':' r9 with
  | none => none
  | some r10 =>
  match takeField 0 59 r10 with
  | none => none
  | some (sec, r11) =>
    if r11.isEmpty && 1 ≤ y && d ≤ daysInMonth y mo then
      some ⟨y, mo, d, h, mi, sec⟩
    else none

/-! ## Feed data (what the program hands to feedgen) -/

/-- `fe.pubDate(...)`: either the parsed UTC datetime, or
`datetime.now(timezone.utc)` — "the current time at generation", left
symbolic since the model has no clock. -/
inductive PubDate where
  | at : DateTimeUTC → PubDate
  | now : PubDate
deriving DecidableEq, Repr

/-- One feed entry, with exactly the fields `scrape_and_generate_rss` sets:
`fe.id`, `fe.title`, `fe.link(href=..., rel='alternate')`,
`fe.description`, `fe.pubDate`. -/
structure Entry where
  id : String
  title : String
  link : String
  description : String
  pubDate : PubDate
deriving DecidableEq, Repr

/-- The feed-level fields the program sets (`fg.id`, `fg.title`,
`fg.description`, `fg.link(href=..., rel='alternate')`) plus its entries.
The XML serializer (`fg.rss_str`) is a collaborator and is not modelled. -/
structure Feed where
  id : String
  title : String
  description : String
  link : String
  items : List Entry
deriving DecidableEq, Repr

/-! ## `urljoin` and `urlparse` (Python `urllib.parse` collaborators) -/

/-- `urllib.parse.urljoin(base, url)` on the inputs this program feeds it:
every live call passes an href selected by the `magnet:?xt=urn:btih:` prefix
pattern, and `urljoin` returns a URL that carries its own (non-special)
scheme unchanged — the spec's facade states this for `magnet:` explicitly.
The non-magnet branch is reached only by the program's dead
`full_title_link` local (its only consumer is a commented-out `fe.link`
call) and is approximated. -/
def urljoin (base url : String) : String :=
  if startswith "magnet:" url then url
  else if url = "" then base else url

/-- `urlparse(url).netloc` for the absolute `http(s)://host/...` URLs the
fallback feed title formats: the text between `//` and the next `/`. -/
def netlocAfterSlashes : List Char → String
  | [] => ""
  | '/' :: '/' :: rest => ⟨rest.takeWhile (fun c => c != '/' && c != '?' && c != '#')⟩
  | _ :: rest => netlocAfterSlashes rest

/-- `urlparse(url).netloc`. -/
def netloc (url : String) : String := netlocAfterSlashes url.data

/-! ## The per-row extraction of `scrape_and_generate_rss` -/

/-- Is an href excluded from the title search? — the loop's
`href.startswith('magnet:?xt=urn:btih:') or href.endswith('.torrent')`. -/
def excludedHref (href : String) : Bool :=
  startswith magnetPat href || endswith ".torrent" href

/-- The title-search loop over `row.select('a[href]')`: walk the anchors in
document order, `continue` past magnet/torrent hrefs, and stop at the first
remaining anchor (whatever its text). -/
def findTitleAnchor : List Node → Option Node
  | [] => none
  | a :: rest => if excludedHref (a.attrD "href") then findTitleAnchor rest else some a

/-- The second half of the title logic: when the loop produced no (non-empty)
title, look at the second `td` — its first anchor's text if it has an
anchor, else its own stripped text; `""` when fewer than two `td`s exist. -/
def secondTdTitle (row : Node) : String :=
  let tds := select row isTd
  if tds.length ≥ 2 then
    let td := tds.getD 1 (tx "")
    match selectOne td isAnchor with
    | some a => a.strippedText
    | none => td.strippedText
  else ""

/-- `item_title` as computed for a row: the first non-magnet/non-torrent
anchor's stripped text when that is non-empty, else the second-`td`
fallback. (`title_link_href` is also tracked by the source but flows only
into the dead `full_title_link` local, so it is not modelled.) -/
def derivedTitle (row : Node) : String :=
  let fromLoop :=
    match findTitleAnchor (select row isHrefAnchor) with
    | some a => a.strippedText
    | none => ""
  if fromLoop ≠ "" then fromLoop else secondTdTitle row

/-- `time_text` for a row: the stripped text of the fourth
`td.text-center` when at least four exist; if that left the text empty and
at least three exist, the third's. -/
def timeText (row : Node) : String :=
  let timeTds := select row isCenterTd
  let t1 := if timeTds.length ≥ 4 then (timeTds.getD 3 (tx "")).strippedText else ""
  if t1 = "" ∧ timeTds.length ≥ 3 then (timeTds.getD 2 (tx "")).strippedText else t1

/-- `item_description`: a `<b>Time:</b>` label when a time was found, else
the fixed placeholder (the join of an empty `description_parts`). -/
def descriptionOf (time_text : String) : String :=
  if time_text = "" then "No description available."
  else "<b>Time:</b> " ++ time_text

/-- `fe.pubDate(...)`: parse the time text when present, falling back to the
current generation time when it is absent or unparsable. -/
def pubDateOf (time_text : String) : PubDate :=
  if time_text = "" then .now
  else
    match strptimeYmdHMS time_text with
    | some d => .at d
    | none => .now

/-- One iteration of the row loop: `some entry` when the row is accepted,
`none` when it is skipped (no magnet anchor, or no derivable title). The
`fg.add_entry()` block's own `try/except` guard never fires for the fields
this program sets, so appending is modelled as always succeeding. -/
def processRow (url : String) (row : Node) : Option Entry :=
  match selectOne row isMagnetAnchor with
  | none => none
  | some mtag =>
    let full_magnet_link := urljoin url (mtag.attrD "href")
    let item_title := derivedTitle row
    if item_title = "" then none
    else
      let time_text := timeText row
      some { id := full_magnet_link
             title := item_title
             link := full_magnet_link
             description := descriptionOf time_text
             pubDate := pubDateOf time_text }

/-- The row loop: `for row in rows: if items_added >= int(max_items): break`,
with `items_added` as the `count` accumulator. -/
def extractLoop (url : String) (maxItems : Nat) (count : Nat) : List Node → List Entry
  | [] => []
  | row :: rest =>
    if count ≥ maxItems then []
    else
      match processRow url row with
      | some e => e :: extractLoop url maxItems (count + 1) rest
      | none => extractLoop url maxItems count rest

/-- Items extracted from a parsed document: the loop over `soup.select('tr')`
starting from `items_added = 0`. -/
def scrapeItems (url : String) (doc : Node) (maxItems : Nat) : List Entry :=
  extractLoop url maxItems 0 (select doc isTr)

/-- `feed_title`: the document `<title>`'s `get_text()`, else the
hostname-derived default. -/
def feedTitle (doc : Node) (url : String) : String :=
  match selectOne doc isTitleTag with
  | some t => t.plainText
  | none => "RSS for " ++ netloc url

/-- The feed built on the success path. -/
def successFeed (url : String) (doc : Node) (maxItems : Nat) : Feed :=
  { id := url
    title := feedTitle doc url
    description := "Generated RSS feed for " ++ url
    link := url
    items := scrapeItems url doc maxItems }

/-- The `except` branch: a feed with the fixed "Processing Error" title, the
failure text embedded in the feed-level description, and no entries —
`error_fg` never receives an `add_entry()`. -/
def errorFeed (url msg : String) : Feed :=
  { id := url
    title := "Processing Error"
    description := "An error occurred processing " ++ url ++ ": " ++ msg
    link := url
    items := [] }

/-! ## The fetch boundary and the request orchestration -/

/-- The outcome of `await pyfetch(url, ...)` followed by the `response.ok`
check and BeautifulSoup parsing: a parsed document, a non-success HTTP
status, or a transport error carrying `str(e)`. (BeautifulSoup's
`html.parser` is lenient and always yields a tree, so parsing itself is not
a failure case.) -/
inductive FetchResult where
  | ok : Node → FetchResult
  | httpError : Nat → String → FetchResult
  | networkError : String → FetchResult

/-- Did the fetch/parse step fail? -/
def FetchResult.isFailure : FetchResult → Bool
  | .ok _ => false
  | .httpError _ _ => true
  | .networkError _ => true

/-- `str(e)` for the exception each failure raises: the explicit
`Exception(f"HTTP Error {response.status}: {response.statusText}")`, or the
transport error's own message. -/
def FetchResult.errMsg : FetchResult → String
  | .ok _ => ""
  | .httpError status statusText => "HTTP Error " ++ toString status ++ ": " ++ statusText
  | .networkError msg => msg

/-- `scrape_and_generate_rss(url, max_items)` with the fetch outcome passed
as a parameter: the success feed, or — for any exception out of the
fetch/parse block — the error feed. -/
def scrape_and_generate_rss (url : String) (maxItems : Nat) : FetchResult → Feed
  | .ok doc => successFeed url doc maxItems
  | r => errorFeed url r.errMsg

/-- Evaluation of the spliced Python line `max_items = <raw text>`: the JS
side pastes the query-parameter text into the source unquoted, so a run of
digits evaluates to that integer while an identifier-like token (any
non-numeric parameter such as `abc`) raises `NameError` before anything else
runs. (Other Python expressions one could paste are outside what the claims
exercise; they are modelled as raising.) -/
inductive SpliceResult where
  | val : Nat → SpliceResult
  | raises : SpliceResult
deriving DecidableEq, Repr

/-- Digits of a numeral to its value. -/
def digitsToNat (cs : List Char) : Nat :=
  cs.foldl (fun acc c => acc * 10 + (c.toNat - 48)) 0

/-- Evaluate the spliced `max_items = ...` line. -/
def evalMaxItemsSplice (raw : String) : SpliceResult :=
  if raw = "" then .raises
  else if raw.data.all Char.isDigit then .val (digitsToNat raw.data)
  else .raises

/-- What a request produces, as seen from the JS `main` driver. -/
inductive Outcome where
  | missingUrl : Outcome
  | pythonError : Outcome
  | ran : Feed → Outcome
deriving DecidableEq, Repr

/-- Was the target fetched? Only the `ran` outcome ever reaches
`await pyfetch`: the missing-url check returns first, a url that breaks the
`target_url = '...'` splice fails the compilation of the Python source, and
a raising `max_items` splice aborts at that assignment — all before the
scrape call. -/
def Outcome.fetchAttempted : Outcome → Bool
  | .ran _ => true
  | _ => false

/-- Does a character break the single-quoted Python literal the url is
spliced into? — the quote (39) terminates the literal early (a stray one,
as in `a` quote `b`, leaves an unterminated string: `SyntaxError`), the
backslash (92) starts an escape that alters or breaks the literal, and a
line break (10, 13) splits the statement. -/
def breaksSingleQuoted (c : Char) : Bool :=
  c.toNat == 39 || c.toNat == 92 || c.toNat == 10 || c.toNat == 13

/-- Evaluation of the spliced Python line `target_url = '<raw text>'`,
compiled before any statement runs: text free of quotes, backslashes and
line breaks evaluates to exactly itself; any other text is modelled as
failing the program (a stray quote is a `SyntaxError`; deliberately crafted
payloads that re-form valid Python are outside what the claims exercise and
are modelled as failing as well). -/
def evalTargetUrlSplice (raw : String) : Option String :=
  if raw.data.all (fun c => !breaksSingleQuoted c) then some raw else none

/-- The JS `main` driver: read `url` and `max_items` from the query string
(`urlParams.get(p)` is `none` when absent; `|| '20'` also replaces an empty
`max_items`), bail out on a missing/empty `url` with the usage error text,
then run the Python program — whose outcome is `pythonError` when the
`target_url` splice breaks the source or the `max_items` splice raises, and
otherwise the feed `scrape_and_generate_rss(target_url, max_items)` for the
given fetch outcome. No URL validation beyond the emptiness check is
performed. -/
def handleRequest (urlParam maxItemsParam : Option String) (fetch : FetchResult) : Outcome :=
  let max_items := match maxItemsParam with
    | none => "20"
    | some s => if s = "" then "20" else s
  match urlParam with
  | none => .missingUrl
  | some u =>
    if u = "" then .missingUrl
    else
      match evalTargetUrlSplice u with
      | none => .pythonError
      | some target_url =>
        match evalMaxItemsSplice max_items with
        | .raises => .pythonError
        | .val n => .ran (scrape_and_generate_rss target_url n fetch)

/-! ## Definitions following the spec's words

These are NOT translated from the source; they formalize what the spec says,
so that claims comparing the spec's description with the program's behaviour
can be stated. Each is named `spec...` / `claim...`. -/

/-- Split a character list at the first `':'`, if any (URL scheme parsing). -/
def schemeSplit (cs : List Char) : Option (List Char × List Char) :=
  let pre := cs.takeWhile (fun c => c != ':')
  if pre.length = cs.length then none
  else some (pre, cs.drop (pre.length + 1))

/-- Is a character list a syntactically valid URL scheme
(letter, then letters/digits/`+`/`-`/`.`)? -/
def validSchemeChars : List Char → Bool
  | [] => false
  | c :: rest => c.isAlpha && rest.all (fun d => d.isAlpha || d.isDigit || d == '+' || d == '-' || d == '.')

/-- The authority component following `//`, up to the next delimiter. -/
def urlHost (cs : List Char) : String :=
  ⟨cs.takeWhile (fun c => c != '/' && c != '?' && c != '#')⟩

/-- Modelled from the spec (§4.1): `isValidUrl(s)` "returns true only if
parsing `s` as an absolute URL yields both a non-empty scheme and a
non-empty host/authority". The source contains no such function — this is
the contract the spec asserts, used to compare against what the code
actually checks. -/
def specIsValidUrl (s : String) : Bool :=
  match schemeSplit s.data with
  | none => false
  | some (sch, rest) =>
    validSchemeChars sch &&
    (match rest with
     | '/' :: '/' :: r => urlHost r != ""
     | _ => false)

/-- The claim's (C1) title rule, as stated: the second table cell's anchor
text if one is present and non-empty, else the second cell's raw stripped
text; `none` (skip) when neither yields non-empty text or there is no
second cell. No element outside the second cell is consulted. -/
def claimTitleRule (row : Node) : Option String :=
  let tds := select row isTd
  if tds.length ≥ 2 then
    let td := tds.getD 1 (tx "")
    let anchorText := match selectOne td isAnchor with
      | some a => a.strippedText
      | none => ""
    if anchorText ≠ "" then some anchorText
    else if td.strippedText ≠ "" then some td.strippedText
    else none
  else none

/-- The title rule the code actually implements, phrased as the amended
claim's ordered fallbacks: the first anchor in the row whose href is neither
magnet- nor torrent-like contributes its stripped text when non-empty;
otherwise the second-`td` fallback applies. -/
def amendedTitleRule (row : Node) : String :=
  match (select row isHrefAnchor).find? (fun a => !excludedHref (a.attrD "href")) with
  | some a => if a.strippedText ≠ "" then a.strippedText else secondTdTitle row
  | none => secondTdTitle row

/-- Does an element match the spec's default `containerSelector`
`.post, .article, .entry, main .content` at a position where `insideMain`
says whether some ancestor is a `main` element? -/
def specContainerMatch (insideMain : Bool) (n : Node) : Bool :=
  hasClass n "post" || hasClass n "article" || hasClass n "entry" ||
    (insideMain && hasClass n "content")

mutual
/-- Modelled from the spec (§4.4 Strategy B, step 1): the containers of a
node's descendants matching the default container selector, in document
order, tracking `main` ancestry for the `main .content` alternative. -/
def Node.specContainers (insideMain : Bool) : Node → List Node
  | .text _ => []
  | .elem t _ cs => NodeList.specContainersAll (insideMain || t == "main") cs
/-- `specContainers` over a child list. -/
def NodeList.specContainersAll (insideMain : Bool) : NodeList → List Node
  | .nil => []
  | .cons c cs =>
    (if specContainerMatch insideMain c then [c] else []) ++
      Node.specContainers insideMain c ++ NodeList.specContainersAll insideMain cs
end

/-- The spec's default `titleSelector` `h1, h2, h3, .title, .post-title`. -/
def specTitleSel (n : Node) : Bool :=
  n.tagOf == "h1" || n.tagOf == "h2" || n.tagOf == "h3" ||
    hasClass n "title" || hasClass n "post-title"

/-- The spec's default `descriptionSelector` `p, .excerpt, .summary`. -/
def specDescSel (n : Node) : Bool :=
  n.tagOf == "p" || hasClass n "excerpt" || hasClass n "summary"

/-- Modelled from the spec (§4.3): `resolveUrl` returns URLs that already
carry a scheme unchanged; relative forms join against the base (only
absolute hrefs are exercised here). -/
def specResolve (base href : String) : String :=
  match schemeSplit href.data with
  | some (sch, _) => if validSchemeChars sch then href else base ++ href
  | none => base ++ href

/-- Modelled from the spec (§4.4 Strategy B, step 2c): the candidate's
title — the anchor's `title` attribute, else its trimmed visible text; below
the 3-character floor, the context's title-selector match counts only when
it is distinct from the anchor; `""` means "no usable title". -/
def specBTitle (a ctx : Node) : String :=
  let t0 := match a.attr "title" with
    | some t => t
    | none => a.strippedText
  if 3 ≤ t0.data.length then t0
  else
    match selectOne ctx specTitleSel with
    | some e => if Node.beq e a then "" else e.strippedText
    | none => ""

/-- Modelled from the spec (§4.4 Strategy B, step 2e): the description from
the context element when distinct from the anchor, truncated to 300
characters. -/
def specBDescription (a ctx : Node) : String :=
  if Node.beq ctx a then ""
  else
    match selectOne ctx specDescSel with
    | some e => ⟨e.strippedText.data.take 300⟩
    | none => ""

/-- Modelled from the spec (§4.4 Strategy B, steps 2a–2g): accept or skip
one (anchor, context) candidate. -/
def specBCandidate (url : String) (a ctx : Node) : Option Entry :=
  match a.attr "href" with
  | none => none
  | some href =>
    let link := specResolve url href
    if !specIsValidUrl link then none
    else
      let title := specBTitle a ctx
      if title = "" then none
      else
        some { id := link
               title := title
               link := link
               description := specBDescription a ctx
               pubDate := .now }

/-- Strategy B's capped acceptance loop (spec §4.4 Strategy B, step 2). -/
def specBLoop (url : String) (maxItems count : Nat) : List (Node × Node) → List Entry
  | [] => []
  | (a, ctx) :: rest =>
    if count ≥ maxItems then []
    else
      match specBCandidate url a ctx with
      | some e => e :: specBLoop url maxItems (count + 1) rest
      | none => specBLoop url maxItems count rest

/-- Modelled from the spec (§4.4): the generic-heuristic strategy
(Strategy B) with the default `ExtractionConfig`: matching containers
(capped at `2 × maxItems`), their anchors as candidates with the container
as context, then the capped acceptance loop. The repository's source
contains no such strategy; this definition exists to compare the spec's
mandated behaviour with the program's. -/
def specStrategyB (url : String) (maxItems : Nat) (doc : Node) : List Entry :=
  let containers := (doc.specContainers false).take (2 * maxItems)
  let candidates := containers.flatMap (fun c => (select c isAnchor).map (fun a => (a, c)))
  specBLoop url maxItems 0 candidates

/-! ## Concrete fixtures -/

/-- A magnet URI used by the fixtures. -/
def magnetHref1 : String := "magnet:?xt=urn:btih:0123456789abcdef"

/-- A magnet anchor. -/
def magnetAnchor1 : Node := el "a" [("href", magnetHref1)] [tx "Magnet"]

/-- C1: a row whose first cell holds the magnet anchor and a details anchor
(text `WrongTitle`), and whose second cell holds only the raw text
`RightTitle`. -/
def rowTitleOutside : Node :=
  el "tr" []
    [el "td" [] [magnetAnchor1, el "a" [("href", "/details/42")] [tx "WrongTitle"]],
     el "td" [] [tx "RightTitle"]]

/-- C6: a row with four centered cells whose fourth is empty and whose third
holds a timestamp. -/
def rowEmptyFourth : Node :=
  el "tr" []
    [el "td" [] [magnetAnchor1, el "a" [("href", "/d")] [tx "SomeName"]],
     el "td" [("class", "text-center")] [tx "c1"],
     el "td" [("class", "text-center")] [tx "c2"],
     el "td" [("class", "text-center")] [tx "2024-01-01 08:00:00"],
     el "td" [("class", "text-center")] []]

/-- C7: a row whose timestamp cell holds a well-formed timestamp. -/
def rowGoodTime : Node :=
  el "tr" []
    [el "td" [] [magnetAnchor1, el "a" [("href", "/x1")] [tx "GoodTime"]],
     el "td" [("class", "text-center")] [tx "s1"],
     el "td" [("class", "text-center")] [tx "s2"],
     el "td" [("class", "text-center")] [tx "2024-03-15 10:30:00"]]

/-- C7: a row whose timestamp cell holds unparsable text. -/
def rowBadTime : Node :=
  el "tr" []
    [el "td" [] [magnetAnchor1, el "a" [("href", "/x2")] [tx "BadTime"]],
     el "td" [("class", "text-center")] [tx "s1"],
     el "td" [("class", "text-center")] [tx "s2"],
     el "td" [("class", "text-center")] [tx "not-a-date"]]

/-- C8: a row with a magnet anchor and a non-empty second cell whose first
anchor has empty text. -/
def rowEmptyAnchorTitle : Node :=
  el "tr" []
    [el "td" [] [magnetAnchor1],
     el "td" [] [el "a" [("href", "/x")] [], tx "Real Title"]]

/-- C8: an ordinary accepted row. -/
def rowNormal : Node :=
  el "tr" []
    [el "td" [] [magnetAnchor1],
     el "td" [] [el "a" [("href", "/view/7")] [tx "A Good Name"]]]

/-- C10: the first anchor with neither excluded property. -/
def pageAnchor : Node := el "a" [("href", "/page/9")] [tx "PageName"]

/-- C10: a row whose anchors are, in order: magnet, `.torrent`, and two
ordinary ones. -/
def rowManyAnchors : Node :=
  el "tr" []
    [el "td" []
      [magnetAnchor1,
       el "a" [("href", "file.torrent")] [tx "DL"],
       pageAnchor,
       el "a" [("href", "/other")] [tx "Other"]]]

/-- C5: a generic listing page (no table rows): one `.post` container with
one well-titled absolute link — Strategy B's bread and butter. -/
def genericDoc : Node :=
  el "html" []
    [el "body" []
      [el "div" [("class", "post")]
        [el "a" [("href", "https://example.com/article1")] [tx "Interesting article title"]]]]

/-- C5: a generic page whose only anchor has 2-character text. -/
def shortAnchorDoc : Node :=
  el "html" []
    [el "body" []
      [el "div" [("class", "post")] [el "a" [("href", "/x")] [tx "Hi"]]]]

/-- A trivial fetched document for orchestration fixtures. -/
def emptyDoc : Node := el "html" [] []

/-- A row with no magnet anchor at all. -/
def rowNoMagnet : Node := el "tr" [] [el "td" [] [tx "no magnet here"]]

/-- The entry `processRow` produces for `rowGoodTime`. -/
def goodTimeEntry : Entry :=
  { id := magnetHref1, title := "GoodTime", link := magnetHref1,
    description := "<b>Time:</b> 2024-03-15 10:30:00",
    pubDate := .at ⟨2024, 3, 15, 10, 30, 0⟩ }

/-- The entry `processRow` produces for `rowBadTime`. -/
def badTimeEntry : Entry :=
  { id := magnetHref1, title := "BadTime", link := magnetHref1,
    description := "<b>Time:</b> not-a-date", pubDate := .now }

/-! ## Helper lemmas -/

/-- The row loop emits exactly the first `maxItems - count` accepted rows. -/
theorem extractLoop_eq_take (url : String) (N : Nat) :
    ∀ (rows : List Node) (c : Nat),
      extractLoop url N c rows = ((rows.filterMap (processRow url)).take (N - c)) := by
  intro rows
  induction rows with
  | nil => intro c; simp [extractLoop]
  | cons r rs ih =>
    intro c
    rw [extractLoop]
    by_cases h : c ≥ N
    · rw [if_pos h, Nat.sub_eq_zero_of_le h, List.take_zero]
    · rw [if_neg h]
      cases hp : processRow url r with
      | none => rw [ih c, List.filterMap_cons, hp]
      | some e =>
        rw [ih (c + 1), List.filterMap_cons, hp]
        have hc : N - c = (N - (c + 1)) + 1 := by omega
        rw [hc, List.take_succ_cons]

/-- A `selectOne` hit satisfies its selector. -/
theorem selectOne_prop (root : Node) (p : Node → Bool) (m : Node)
    (h : selectOne root p = some m) : p m = true := by
  rw [selectOne] at h
  have hmem : m ∈ select root p := by
    cases hl : select root p with
    | nil => rw [hl] at h; cases h
    | cons x xs =>
      rw [hl] at h
      cases h
      exact List.mem_cons_self _ _
  exact (List.mem_filter.mp hmem).2

/-- A magnet-selector hit's href carries the magnet pattern. -/
theorem magnet_href_of_isMagnetAnchor (m : Node) (h : isMagnetAnchor m = true) :
    startswith magnetPat (m.attrD "href") = true := by
  rw [isMagnetAnchor, Bool.and_eq_true] at h
  obtain ⟨-, h2⟩ := h
  rw [Node.attrD]
  cases hh : m.attr "href" with
  | none => rw [hh] at h2; cases h2
  | some s => rw [hh] at h2; simpa using h2

/-- `urljoin` returns a magnet-pattern href unchanged (a `magnet:` URI is
not resolved against the base). -/
theorem urljoin_magnet (url href : String) (h : startswith magnetPat href = true) :
    urljoin url href = href := by
  have h2 : startswith "magnet:" href = true := by
    rw [startswith] at h ⊢
    rw [ List.isPrefixOf_iff_prefix] at h ⊢
    have hp : "magnet:".data <+: magnetPat.data := ⟨"?xt=urn:btih:".data, by decide⟩
    exact hp.trans h
  rw [urljoin, if_pos h2]

/-- A row without a magnet anchor is skipped. -/
theorem processRow_none_of_noMagnet (url : String) (row : Node)
    (h : selectOne row isMagnetAnchor = none) : processRow url row = none := by
  rw [processRow, h]

/-- A row whose derived title is empty is skipped. -/
theorem processRow_none_of_emptyTitle (url : String) (row : Node)
    (h : derivedTitle row = "") : processRow url row = none := by
  rw [processRow]
  cases hm : selectOne row isMagnetAnchor with
  | none => rfl
  | some m => simp [h]

/-- Characterization of an accepted row's entry. -/
theorem processRow_some_eq (url : String) (row m : Node)
    (hm : selectOne row isMagnetAnchor = some m)
    (ht : derivedTitle row ≠ "") :
    processRow url row =
      some { id := urljoin url (m.attrD "href")
             title := derivedTitle row
             link := urljoin url (m.attrD "href")
             description := descriptionOf (timeText row)
             pubDate := pubDateOf (timeText row) } := by
  rw [processRow, hm]
  simp [ht]

/-- An emitted entry's publish date is `pubDateOf` of the row's time text. -/
theorem processRow_pubDate (url : String) (row : Node) (e : Entry)
    (h : processRow url row = some e) : e.pubDate = pubDateOf (timeText row) := by
  rw [processRow] at h
  cases hm : selectOne row isMagnetAnchor with
  | none => rw [hm] at h; cases h
  | some m =>
    rw [hm] at h
    by_cases ht : derivedTitle row = ""
    · simp [ht] at h
    · simp [ht] at h
      rw [← h]

/-- `findTitleAnchor` agrees with `find?` over the kept-anchor predicate. -/
theorem findTitleAnchor_eq_find (l : List Node) :
    findTitleAnchor l = l.find? (fun a => !excludedHref (a.attrD "href")) := by
  induction l with
  | nil => rfl
  | cons x xs ih =>
    rw [findTitleAnchor, List.find?]
    cases hx : excludedHref (x.attrD "href") with
    | true => simp [hx, ih]
    | false => simp [hx]

/-- The first-match property of the title-anchor search. -/
theorem findTitleAnchor_first (l : List Node) (a : Node)
    (h : findTitleAnchor l = some a) :
    excludedHref (a.attrD "href") = false ∧
    ∃ pre post, l = pre ++ a :: post ∧
      ∀ b ∈ pre, excludedHref (b.attrD "href") = true := by
  induction l with
  | nil => cases h
  | cons x xs ih =>
    rw [findTitleAnchor] at h
    cases hx : excludedHref (x.attrD "href") with
    | true =>
      rw [if_pos hx] at h
      obtain ⟨he, pre, post, heq, hpre⟩ := ih h
      refine ⟨he, x :: pre, post, by rw [heq]; rfl, ?_⟩
      intro b hb
      rcases List.mem_cons.mp hb with hb | hb
      · rw [hb]; exact hx
      · exact hpre b hb
    | false =>
      rw [if_neg (by rw [hx]; exact Bool.false_ne_true)] at h
      cases h
      exact ⟨hx, [], xs, rfl, by intro b hb; cases hb⟩

/-! ## The claims -/

/-- C1 (counterexample): the claim says the title comes from the second
table cell only. On `rowTitleOutside` — magnet anchor and a `WrongTitle`
details anchor both in the FIRST cell, second cell's text `RightTitle` —
the program titles the item `WrongTitle` from the first cell's anchor,
while the claimed second-cell-only rule yields `RightTitle`. -/
theorem c1_title_second_cell_counterexample :
    derivedTitle rowTitleOutside = "WrongTitle" ∧
    (processRow "http://h/" rowTitleOutside).map Entry.title = some "WrongTitle" ∧
    claimTitleRule rowTitleOutside = some "RightTitle" ∧
    ("WrongTitle" : String) ≠ "RightTitle" :=
  ⟨by decide, by decide, by decide, by decide⟩

/-- C1 (amended): the title is resolved in this priority order: first the
stripped text of the first anchor in the row (document order) whose href is
neither magnet-patterned nor `.torrent`-suffixed, when that text is
non-empty; else the second cell's first anchor's text if the second cell
contains an anchor; else the second cell's raw stripped text; and a row
whose resolved title is empty is skipped. -/
theorem c1_title_resolution_amended :
    (∀ row : Node, derivedTitle row = amendedTitleRule row) ∧
    (∀ (url : String) (row : Node), derivedTitle row = "" → processRow url row = none) := by
  constructor
  · intro row
    rw [derivedTitle, amendedTitleRule, ← findTitleAnchor_eq_find]
    cases h : findTitleAnchor (select row isHrefAnchor) with
    | none => simp
    | some a =>
      by_cases ht : a.strippedText ≠ "" <;> simp [ht]
  · intro url row h
    exact processRow_none_of_emptyTitle url row h

/-- C1 (witness): the amended statement at a concrete row, with its
skip-hypothesis discharged at `rowEmptyAnchorTitle`. -/
theorem c1_title_resolution_amended_witness :
    derivedTitle rowTitleOutside = amendedTitleRule rowTitleOutside ∧
    derivedTitle rowEmptyAnchorTitle = "" ∧
    processRow "http://h/" rowEmptyAnchorTitle = none :=
  ⟨c1_title_resolution_amended.1 rowTitleOutside, by decide,
   c1_title_resolution_amended.2 "http://h/" rowEmptyAnchorTitle (by decide)⟩

/-- C2 (confirmed): for every document and cap `N`, the emitted items are
the first `N` accepted rows in document order, so the count is
`min N (number of accepted rows)` and in particular at most `N`. -/
theorem c2_cap_invariant (url : String) (doc : Node) (N : Nat) :
    scrapeItems url doc N = ((select doc isTr).filterMap (processRow url)).take N ∧
    (scrapeItems url doc N).length =
      min N ((select doc isTr).filterMap (processRow url)).length := by
  have h := extractLoop_eq_take url N (select doc isTr) 0
  rw [Nat.sub_zero] at h
  rw [scrapeItems]
  exact ⟨h, by rw [h, List.length_take]⟩

/-- C3 (counterexample): on a failing fetch the returned feed contains no
item at all — not the claimed single synthetic error item. -/
theorem c3_single_error_item_counterexample :
    (scrape_and_generate_rss "http://example.com/" 20 (.networkError "boom")).items = [] ∧
    (scrape_and_generate_rss "http://example.com/" 20 (.networkError "boom")).items.length ≠ 1 :=
  ⟨by decide, by decide⟩

/-- C3 (amended): a failing fetch/parse yields the "Processing Error" feed
whose feed-level description carries the failure message and whose item
list is empty; consequently real items never coexist with error output
(feeds with items only arise from successful fetches). -/
theorem c3_error_feed_amended :
    (∀ (url : String) (N : Nat) (fr : FetchResult), fr.isFailure = true →
      scrape_and_generate_rss url N fr = errorFeed url fr.errMsg ∧
      (scrape_and_generate_rss url N fr).items = [] ∧
      (scrape_and_generate_rss url N fr).title = "Processing Error" ∧
      (scrape_and_generate_rss url N fr).description =
        "An error occurred processing " ++ url ++ ": " ++ fr.errMsg) ∧
    (∀ (url : String) (N : Nat) (fr : FetchResult),
      (scrape_and_generate_rss url N fr).items ≠ [] → fr.isFailure = false) := by
  constructor
  · intro url N fr h
    cases fr with
    | ok doc => cases h
    | httpError s t => exact ⟨rfl, rfl, rfl, rfl⟩
    | networkError msg => exact ⟨rfl, rfl, rfl, rfl⟩
  · intro url N fr h
    cases fr with
    | ok doc => rfl
    | httpError s t => exact absurd rfl h
    | networkError msg => exact absurd rfl h

/-- C3 (witness): the amended statement at a concrete transport failure. -/
theorem c3_error_feed_amended_witness :
    (FetchResult.networkError "boom").isFailure = true ∧
    scrape_and_generate_rss "http://example.com/" 20 (.networkError "boom") =
      errorFeed "http://example.com/" "boom" ∧
    (scrape_and_generate_rss "http://example.com/" 20 (.networkError "boom")).items = [] :=
  ⟨rfl, (c3_error_feed_amended.1 "http://example.com/" 20 (.networkError "boom") rfl).1,
   (c3_error_feed_amended.1 "http://example.com/" 20 (.networkError "boom") rfl).2.1⟩

/-- C4 (code bug): a present but non-numeric `max_items` is spliced
verbatim into the Python source, so `max_items = abc` raises `NameError`
and the request fails before any fetch — it does not fall back to the
default cap of 20, although a numeric parameter (and the absent-parameter
default `'20'`) works. -/
theorem c4_nonnumeric_max_items_fails :
    handleRequest (some "http://example.com/") (some "abc") (.ok emptyDoc) = .pythonError ∧
    (handleRequest (some "http://example.com/") (some "abc") (.ok emptyDoc)).fetchAttempted
      = false ∧
    handleRequest (some "http://example.com/") (some "20") (.ok emptyDoc) =
      .ran (scrape_and_generate_rss "http://example.com/" 20 (.ok emptyDoc)) ∧
    handleRequest (some "http://example.com/") none (.ok emptyDoc) =
      .ran (scrape_and_generate_rss "http://example.com/" 20 (.ok emptyDoc)) :=
  ⟨rfl, rfl, rfl, rfl⟩

/-- C5 (counterexample): the extractor does not implement the spec's
generic-heuristic Strategy B. On `genericDoc` — one `.post` container with
a validly-linked, well-titled anchor and no table rows — Strategy B as
specified yields exactly that article as an item, while the program's
extractor yields nothing. -/
theorem c5_strategyB_counterexample :
    scrapeItems "https://host/" genericDoc 20 = [] ∧
    specStrategyB "https://host/" 20 genericDoc =
      [{ id := "https://example.com/article1", title := "Interesting article title",
         link := "https://example.com/article1", description := "", pubDate := .now }] :=
  ⟨by decide, by decide⟩

/-- C5 (amended): only the structured-table strategy exists: every emitted
item comes from a table row with a magnet anchor, so a document none of
whose rows has a magnet anchor — in particular any generic listing page,
whatever its anchors' text lengths — yields zero items. -/
theorem c5_strategyA_only_amended :
    ∀ (url : String) (N : Nat) (doc : Node),
      (select doc isTr).all (fun r => (selectOne r isMagnetAnchor).isNone) = true →
      scrapeItems url doc N = [] := by
  intro url N doc h
  have h2 : (select doc isTr).filterMap (processRow url) = [] := by
    rw [List.filterMap_eq_nil_iff]
    intro r hr
    exact processRow_none_of_noMagnet url r
      (Option.isNone_iff_eq_none.mp (List.all_eq_true.mp h r hr))
  rw [scrapeItems, extractLoop_eq_take, h2, List.take_nil]

/-- C5 (witness): the amended statement on the short-anchor generic page of
the claim's own example (anchor text `"Hi"`). -/
theorem c5_strategyA_only_amended_witness :
    (select shortAnchorDoc isTr).all (fun r => (selectOne r isMagnetAnchor).isNone) = true ∧
    scrapeItems "https://host/" shortAnchorDoc 20 = [] :=
  ⟨by decide, c5_strategyA_only_amended "https://host/" 20 shortAnchorDoc (by decide)⟩

/-- C6 (counterexample): with four centered cells whose fourth is empty,
the program falls back to the third cell's text — the claim's "only the 4th
is consulted" fails. -/
theorem c6_fourth_cell_counterexample :
    (select rowEmptyFourth isCenterTd).length = 4 ∧
    ((select rowEmptyFourth isCenterTd).getD 3 (tx "")).strippedText = "" ∧
    timeText rowEmptyFourth = "2024-01-01 08:00:00" ∧
    timeText rowEmptyFourth ≠
      ((select rowEmptyFourth isCenterTd).getD 3 (tx "")).strippedText :=
  ⟨by decide, by decide, by decide, by decide⟩

/-- C6 (amended): with four or more centered cells the 4th's text is taken
when non-empty, and the 3rd's when the 4th's is empty; with exactly three,
the 3rd's; with fewer than three, the timestamp stays empty. -/
theorem c6_timestamp_resolution_amended :
    ∀ row : Node,
      (4 ≤ (select row isCenterTd).length →
        ((select row isCenterTd).getD 3 (tx "")).strippedText ≠ "" →
        timeText row = ((select row isCenterTd).getD 3 (tx "")).strippedText) ∧
      (4 ≤ (select row isCenterTd).length →
        ((select row isCenterTd).getD 3 (tx "")).strippedText = "" →
        timeText row = ((select row isCenterTd).getD 2 (tx "")).strippedText) ∧
      ((select row isCenterTd).length = 3 →
        timeText row = ((select row isCenterTd).getD 2 (tx "")).strippedText) ∧
      ((select row isCenterTd).length ≤ 2 → timeText row = "") := by
  intro row
  simp only [timeText]
  refine ⟨?_, ?_, ?_, ?_⟩
  · intro h4 hne
    rw [if_pos h4, if_neg (fun hand => hne hand.1)]
  · intro h4 he
    rw [if_pos h4, if_pos ⟨he, by omega⟩]
  · intro h3
    have hn4 : ¬ 4 ≤ (select row isCenterTd).length := by omega
    have hc : ("" : String) = "" ∧ 3 ≤ (select row isCenterTd).length := ⟨rfl, by omega⟩
    rw [if_neg hn4, if_pos hc]
  · intro h2
    have hn4 : ¬ 4 ≤ (select row isCenterTd).length := by omega
    have hnc : ¬ (("" : String) = "" ∧ 3 ≤ (select row isCenterTd).length) :=
      fun hand => absurd hand.2 (by omega)
    rw [if_neg hn4, if_neg hnc]

/-- C6 (witness): the fallback branch of the amended statement at the
concrete empty-fourth-cell row. -/
theorem c6_timestamp_resolution_amended_witness :
    4 ≤ (select rowEmptyFourth isCenterTd).length ∧
    ((select rowEmptyFourth isCenterTd).getD 3 (tx "")).strippedText = "" ∧
    timeText rowEmptyFourth =
      ((select rowEmptyFourth isCenterTd).getD 2 (tx "")).strippedText :=
  ⟨by decide, by decide,
   (c6_timestamp_resolution_amended rowEmptyFourth).2.1 (by decide) (by decide)⟩

/-- C7 (confirmed): an accepted row whose time text is
`"2024-03-15 10:30:00"` gets the UTC instant 2024-03-15T10:30:00Z as its
publish date, and an accepted row with non-empty but unparsable time text
falls back to the current generation time — the item itself is still
emitted, no error is raised. -/
theorem c7_timestamp_parse :
    (∀ (url : String) (row : Node) (e : Entry), processRow url row = some e →
      timeText row = "2024-03-15 10:30:00" →
      e.pubDate = .at ⟨2024, 3, 15, 10, 30, 0⟩) ∧
    (∀ (url : String) (row : Node) (e : Entry), processRow url row = some e →
      timeText row ≠ "" → strptimeYmdHMS (timeText row) = none →
      e.pubDate = .now) := by
  constructor
  · intro url row e he ht
    rw [processRow_pubDate url row e he, ht]
    decide
  · intro url row e he ht hp
    rw [processRow_pubDate url row e he, pubDateOf, if_neg ht, hp]

/-- C7 (witness): the parse and the fallback at the two concrete rows. -/
theorem c7_timestamp_parse_witness :
    (processRow "http://h/" rowGoodTime = some goodTimeEntry ∧
      timeText rowGoodTime = "2024-03-15 10:30:00" ∧
      goodTimeEntry.pubDate = .at ⟨2024, 3, 15, 10, 30, 0⟩) ∧
    (processRow "http://h/" rowBadTime = some badTimeEntry ∧
      timeText rowBadTime ≠ "" ∧
      strptimeYmdHMS (timeText rowBadTime) = none ∧
      badTimeEntry.pubDate = .now) :=
  ⟨⟨by decide, by decide,
    c7_timestamp_parse.1 "http://h/" rowGoodTime goodTimeEntry (by decide) (by decide)⟩,
   ⟨by decide, by decide, by decide,
    c7_timestamp_parse.2 "http://h/" rowBadTime badTimeEntry (by decide) (by decide) (by decide)⟩⟩

/-- C8 (counterexample): a row with a magnet anchor and a non-empty second
cell (`"Real Title"`) yields NO item, because the second cell's first
anchor exists with empty text and the fallback never reaches the cell's raw
text — refuting "always yields exactly one item". -/
theorem c8_magnet_row_counterexample :
    (selectOne rowEmptyAnchorTitle isMagnetAnchor).isSome = true ∧
    ((select rowEmptyAnchorTitle isTd).getD 1 (tx "")).strippedText = "Real Title" ∧
    processRow "http://h/" rowEmptyAnchorTitle = none :=
  ⟨by decide, by decide, by decide⟩

/-- C8 (amended): a row with a magnet anchor yields exactly one item
precisely when its derived title is non-empty, and that item's id and link
both equal the magnet URI unchanged; a row with no magnet anchor yields
zero items. -/
theorem c8_magnet_row_amended :
    (∀ (url : String) (row m : Node), selectOne row isMagnetAnchor = some m →
      derivedTitle row ≠ "" →
      processRow url row =
        some { id := m.attrD "href", title := derivedTitle row, link := m.attrD "href",
               description := descriptionOf (timeText row),
               pubDate := pubDateOf (timeText row) }) ∧
    (∀ (url : String) (row : Node), selectOne row isMagnetAnchor = none →
      processRow url row = none) := by
  constructor
  · intro url row m hm ht
    have hmag : isMagnetAnchor m = true := selectOne_prop row isMagnetAnchor m hm
    have hju : urljoin url (m.attrD "href") = m.attrD "href" :=
      urljoin_magnet url _ (magnet_href_of_isMagnetAnchor m hmag)
    rw [processRow_some_eq url row m hm ht, hju]
  · intro url row h
    exact processRow_none_of_noMagnet url row h

/-- C8 (witness): the amended statement at a normal accepted row and a
magnet-free row. -/
theorem c8_magnet_row_amended_witness :
    (selectOne rowNormal isMagnetAnchor = some magnetAnchor1 ∧
      derivedTitle rowNormal ≠ "" ∧
      processRow "http://h/" rowNormal =
        some { id := magnetHref1, title := derivedTitle rowNormal, link := magnetHref1,
               description := descriptionOf (timeText rowNormal),
               pubDate := pubDateOf (timeText rowNormal) }) ∧
    (selectOne rowNoMagnet isMagnetAnchor = none ∧
      processRow "http://h/" rowNoMagnet = none) :=
  ⟨⟨rfl, by decide,
    c8_magnet_row_amended.1 "http://h/" rowNormal magnetAnchor1 rfl (by decide)⟩,
   ⟨rfl, c8_magnet_row_amended.2 "http://h/" rowNoMagnet rfl⟩⟩

/-- C10 (confirmed): in the title-anchor search, an anchor whose href
starts with the magnet pattern or ends in `.torrent` is never selected, and
a selected anchor is the first anchor of the row, in document order, with
neither property. -/
theorem c10_title_anchor_first :
    ∀ (row a : Node), findTitleAnchor (select row isHrefAnchor) = some a →
      startswith magnetPat (a.attrD "href") = false ∧
      endswith ".torrent" (a.attrD "href") = false ∧
      ∃ pre post, select row isHrefAnchor = pre ++ a :: post ∧
        ∀ b ∈ pre, excludedHref (b.attrD "href") = true := by
  intro row a h
  obtain ⟨hex, pre, post, heq, hpre⟩ := findTitleAnchor_first (select row isHrefAnchor) a h
  rw [excludedHref, Bool.or_eq_false_iff] at hex
  exact ⟨hex.1, hex.2, pre, post, heq, hpre⟩

/-- C10 (witness): the search at a row whose anchors are magnet, torrent,
then two ordinary ones: the third anchor is selected, past two excluded
ones. -/
theorem c10_title_anchor_first_witness :
    startswith magnetPat (pageAnchor.attrD "href") = false ∧
    endswith ".torrent" (pageAnchor.attrD "href") = false ∧
    ∃ pre post, select rowManyAnchors isHrefAnchor = pre ++ pageAnchor :: post ∧
      ∀ b ∈ pre, excludedHref (b.attrD "href") = true :=
  c10_title_anchor_first rowManyAnchors pageAnchor rfl

end RssGen
